import Mathlib

/-!
Verification of the GSL dataset builder
(sign_language_datasets/datasets/gsl/gsl.py) against its specification.

The development shallowly embeds the Python module: Python strings are Lean
strings, the checksum registry file and the split manifest file are lists of
lines, a filesystem directory is a listing of entries, and the generator body
of `_generate_examples` becomes an explicit step function returning
`Except PyError` so that IndexError / ValueError / KeyError raised by the
Python code appear as error values.
-/

/-- Python whitespace characters, as recognised by str.split() with no
argument and by str.strip() with no argument. -/
def pyIsSpace (c : Char) : Bool :=
  c = ' ' || c = '\t' || c = '\n' || c = '\r' || c = '\x0b' || c = '\x0c'

/-- Python str.strip() on a character list: drop leading and trailing
whitespace. -/
def stripChars (l : List Char) : List Char :=
  ((l.dropWhile pyIsSpace).reverse.dropWhile pyIsSpace).reverse

/-- Python line.strip(). -/
def pyStrip (s : String) : String := String.mk (stripChars s.data)

/-- Python s.split(sep) for a one-character separator: split at every
occurrence of the separator, keeping empty fields. -/
def pySplitChar (sep : Char) (s : String) : List String :=
  (s.data.splitOnP fun c => c = sep).map String.mk

/-- Python line.split(chr(9)), the registry-line split of _get_url_infos. -/
def pySplitTab (s : String) : List String := pySplitChar '\t' s

/-- Comma split used to model one csv record of the split manifest. -/
def pySplitComma (s : String) : List String := pySplitChar ',' s

/-- Python s.split() with no argument: split on runs of whitespace,
discarding empty fields. -/
def pySplitWs (s : String) : List String :=
  ((s.data.splitOnP pyIsSpace).filter fun l => l ≠ []).map String.mk

/-- Numeric value of a decimal digit character. -/
def digitVal (c : Char) : Nat := c.toNat - '0'.toNat

/-- Digit tail of a Python integer literal: decimal digits, where a single
underscore may stand between two digits (CPython int() accepts these). -/
def pyIntDigits : Nat → List Char → Option Nat
  | acc, [] => some acc
  | acc, '_' :: c :: cs =>
      if c.isDigit then pyIntDigits (acc * 10 + digitVal c) cs else none
  | acc, c :: cs =>
      if c.isDigit then pyIntDigits (acc * 10 + digitVal c) cs else none

/-- Unsigned body of a Python int() parse: at least one digit, and it must
start with a digit. -/
def pyIntBody (cs : List Char) : Option Nat :=
  match cs with
  | [] => none
  | c :: rest => if c.isDigit then pyIntDigits (digitVal c) rest else none

/-- Python int(s): strip whitespace, take an optional sign, then a nonempty
digit body; None models the ValueError raised on any other shape. -/
def pyInt (s : String) : Option Int :=
  match stripChars s.data with
  | '+' :: cs => (pyIntBody cs).map fun n => (n : Int)
  | '-' :: cs => (pyIntBody cs).map fun n => -(n : Int)
  | cs => (pyIntBody cs).map fun n => (n : Int)

/-- UrlInfo record handed to the download manager, with the fields the
source constructs (size, checksum, filename). -/
structure UrlInfo where
  size : Option Nat
  checksum : String
  filename : Option String
deriving DecidableEq

/-- Python dict assignment url_infos[url] = v on an insertion-ordered
association list: replace an existing binding in place, else append. -/
def dictInsert (m : List (String × UrlInfo)) (k : String) (v : UrlInfo) :
    List (String × UrlInfo) :=
  match m with
  | [] => [(k, v)]
  | (k', v') :: rest =>
      if k' = k then (k, v) :: rest else (k', v') :: dictInsert rest k v

/-- Loop body of _get_url_infos for one registry line: strip the line, split
on tabs; with exactly three columns and a url belonging to the requested
list, record UrlInfo(size=None, checksum, filename=None); otherwise the
line contributes nothing. -/
def urlInfoStep (urls : List String) (m : List (String × UrlInfo))
    (line : String) : List (String × UrlInfo) :=
  match pySplitTab (pyStrip line) with
  | [url, checksum, _] =>
      if urls.contains url then dictInsert m url ⟨none, checksum, none⟩ else m
  | _ => m

/-- Embedding of GSL._get_url_infos: fold the loop body over the lines of
the checksum registry file, starting from the empty dict. -/
def getUrlInfos (urls : List String) (lines : List String) :
    List (String × UrlInfo) :=
  lines.foldl (urlInfoStep urls) []

/-- Embedding of _VIDEOS_URLS_TEMPLATE.format(name). -/
def videosUrlTemplate (name : String) : String :=
  "https://zenodo.org/records/4756317/files/" ++ name ++ ".zip?download=1"

/-- Embedding of _DEPTH_URLS_TEMPLATE.format(name): note the template itself
already carries the _Depth suffix before ".zip". -/
def depthUrlTemplate (name : String) : String :=
  "https://zenodo.org/records/4756317/files/" ++ name ++ "_Depth.zip?download=1"

/-- video_names from _split_generators: f-string prefix+index over the three
scenario names and range(1, 6). -/
def videoNames : List String :=
  ["health", "kep", "police"].flatMap fun p =>
    (List.range' 1 5).map fun i => p ++ toString i

/-- depth_names from _split_generators: every video name with _Depth
appended. -/
def depthNames : List String := videoNames.map fun name => name ++ "_Depth"

/-- video_urls from _split_generators. -/
def videoUrls : List String := videoNames.map videosUrlTemplate

/-- depth_urls from _split_generators: the depth template applied to the
already-suffixed depth names. -/
def depthUrls : List String := depthNames.map depthUrlTemplate

/-- download_urls = video_urls + depth_urls. -/
def downloadUrls : List String := videoUrls ++ depthUrls

/-- Split names listed in the dict comprehension of _split_generators. -/
def splitNames : List String := ["GSL-SD-train", "GSL-SD-val", "GSL-SD-test"]

/-- os.path.join for the relative-path uses in this module. -/
def osPathJoin (a b : String) : String := a ++ "/" ++ b

/-- Manifest file chosen per split: os.path.join(continuous_dir,
f-string split ++ ".csv"), paired with its split name, for each of the
three split names, in order. -/
def splitManifests (continuousDir : String) : List (String × String) :=
  splitNames.map fun split => (split, osPathJoin continuousDir (split ++ ".csv"))

/-- Filesystem entry as seen through pathlib: the full path and its final
component (path.name). -/
structure FsEntry where
  full : String
  name : String
deriving DecidableEq

/-- Extracted archive directory: its name (file.name in _split_generators)
and its listing (paths.iterdir() in _generate_examples). -/
structure PyDir where
  name : String
  entries : List FsEntry
deriving DecidableEq

/-- video_files filter of _split_generators: keep downloaded directories
whose name is one of the video names. -/
def videoFilesOf (files : List PyDir) : List PyDir :=
  files.filter fun f => videoNames.contains f.name

/-- depth_files filter of _split_generators: keep downloaded directories
whose name is one of the depth names. -/
def depthFilesOf (files : List PyDir) : List PyDir :=
  files.filter fun f => depthNames.contains f.name

/-- Embedding of the list comprehension
[path for paths in dirs for path in paths.iterdir() if path.name == fname][0]:
flatten the directory listings, keep the entries named fname, and take the
first; None models the IndexError of [0] on an empty list. -/
def findAsset (dirs : List PyDir) (fname : String) : Option FsEntry :=
  ((dirs.flatMap PyDir.entries).filter fun p => p.name == fname).head?

/-- Python exceptions the generator body can raise. -/
inductive PyError where
  | indexError
  | valueError
  | keyError
deriving DecidableEq

/-- Sentence sub-record of an emitted example. -/
structure SentenceRec where
  id : String
  text : String
  glosses : List String
deriving DecidableEq

/-- Emitted example record; inst stands for the source field named
"instance" (a Lean keyword), and video / depth_video hold the resolved
paths. -/
structure ExampleRec where
  id : String
  signer : String
  sentence : SentenceRec
  inst : Int
  video : String
  depth_video : String
deriving DecidableEq

/-- Filename looked up for a row: f-string video_id ++ ".mp4"; the source
computes the same string for both video_filename and depth_filename. -/
def videoFilename (video_id : String) : String := video_id ++ ".mp4"

/-- Body of the generator loop of _generate_examples on one csv dict row,
in the evaluation order of the Python code: row["video_id"], then the video
lookup, then the depth lookup, then the remaining column accesses in dict
literal order, then int(row["instance"]). A missing column raises KeyError,
a failed [0] raises IndexError, a failed int() raises ValueError. -/
def processDict (video_paths depth_paths : List PyDir)
    (d : List (String × String)) : Except PyError (String × ExampleRec) :=
  match List.lookup "video_id" d with
  | none => .error .keyError
  | some video_id =>
    match findAsset video_paths (videoFilename video_id) with
    | none => .error .indexError
    | some video_path =>
      match findAsset depth_paths (videoFilename video_id) with
      | none => .error .indexError
      | some depth_path =>
        match List.lookup "signer" d with
        | none => .error .keyError
        | some signer =>
          match List.lookup "sentence" d with
          | none => .error .keyError
          | some sentenceId =>
            match List.lookup "translation" d with
            | none => .error .keyError
            | some translationText =>
              match List.lookup "annotation" d with
              | none => .error .keyError
              | some annotationText =>
                match List.lookup "instance" d with
                | none => .error .keyError
                | some instText =>
                  match pyInt instText with
                  | none => .error .valueError
                  | some n =>
                    .ok (video_id,
                      { id := video_id
                        signer := signer
                        sentence :=
                          { id := sentenceId
                            text := translationText
                            glosses := pySplitWs annotationText }
                        inst := n
                        video := video_path.full
                        depth_video := depth_path.full })

deriving instance DecidableEq for Except

/-- Manifest row holding the six csv columns the generator reads; ann and
inst stand for the source columns named "annotation" and "instance". -/
structure ManifestRow where
  video_id : String
  signer : String
  sentence : String
  translation : String
  ann : String
  inst : String
deriving DecidableEq

/-- Dict produced by csv.DictReader for a complete manifest row. -/
def rowDict (r : ManifestRow) : List (String × String) :=
  [("video_id", r.video_id), ("signer", r.signer), ("sentence", r.sentence),
   ("translation", r.translation), ("annotation", r.ann),
   ("instance", r.inst)]

/-- Generator loop body specialised to a complete manifest row. -/
def processRow (video_paths depth_paths : List PyDir) (r : ManifestRow) :
    Except PyError (String × ExampleRec) :=
  processDict video_paths depth_paths (rowDict r)

/-- Outcome of running the generator: the (key, record) pairs yielded before
the loop finished, and the exception that stopped it, if any. -/
structure GenResult where
  yielded : List (String × ExampleRec)
  err : Option PyError
deriving DecidableEq

/-- Run the generator loop over the parsed rows: each row either yields one
pair or raises, and a raise ends the run with no pair for that row nor any
later row. -/
def runGen (step : α → Except PyError (String × ExampleRec)) :
    List α → GenResult
  | [] => ⟨[], none⟩
  | a :: rest =>
    match step a with
    | .error e => ⟨[], some e⟩
    | .ok p =>
      let r := runGen step rest
      ⟨p :: r.yielded, r.err⟩

/-- Embedding of _generate_examples on an already-parsed list of manifest
rows. -/
def generateExamples (video_paths depth_paths : List PyDir)
    (rows : List ManifestRow) : GenResult :=
  runGen (processRow video_paths depth_paths) rows

/-- split_data = list(csv.DictReader(f)) for a manifest without quoted
fields: the first line is the header, and every later line becomes the dict
zipping the header names with the line's comma-separated fields. -/
def dictRows (lines : List String) : List (List (String × String)) :=
  match lines with
  | [] => []
  | hdr :: rest =>
    rest.map fun line => (pySplitComma hdr).zip (pySplitComma line)

/-- Extraction of the six named columns from a csv dict row; None models
the KeyError on the first missing column. -/
def toRow (d : List (String × String)) : Option ManifestRow :=
  match List.lookup "video_id" d, List.lookup "signer" d,
        List.lookup "sentence" d, List.lookup "translation" d,
        List.lookup "annotation" d, List.lookup "instance" d with
  | some v, some s, some se, some t, some a, some i =>
      some ⟨v, s, se, t, a, i⟩
  | _, _, _, _, _, _ => none

/-- Embedding of _generate_examples from the manifest file's lines: parse
the whole csv eagerly into dict rows, then run the generator loop. -/
def generateFromLines (video_paths depth_paths : List PyDir)
    (lines : List String) : GenResult :=
  runGen (processDict video_paths depth_paths) (dictRows lines)

/-! ### Helper lemmas about the embedded operations -/

/-- Concrete directory, entry and row material used by witnesses below. -/
def cexEntry : FsEntry := ⟨"health1/a.mp4", "a.mp4"⟩

/-- One extracted video directory holding a.mp4. -/
def cexDirs : List PyDir := [⟨"health1", [cexEntry]⟩]

/-- Manifest row for video a with two glosses and instance column 1. -/
def cexRow : ManifestRow := ⟨"a", "s1", "sent1", "tr", "G1 G2", "1"⟩

/-- Directory list in which a.mp4 does not occur. -/
def missDirs : List PyDir := [⟨"health1", []⟩]

/-- Two directories that both hold an entry named a.mp4. -/
def dupDirs : List PyDir :=
  [⟨"health1", [⟨"health1/a.mp4", "a.mp4"⟩]⟩,
   ⟨"health2", [⟨"health2/a.mp4", "a.mp4"⟩]⟩]

/-- Manifest row whose instance column is not an integer literal. -/
def badIntRow : ManifestRow := ⟨"a", "s1", "sent1", "tr", "G1", "oops"⟩

/-- Manifest row carrying the gloss sequence of the spec's example. -/
def glossRow : ManifestRow := ⟨"a", "s", "sid", "tr", "GLOSS-A GLOSS-B GLOSS-C", "1"⟩

/-- Record produced for cexRow over cexDirs. -/
def cexRecord : ExampleRec :=
  ⟨"a", "s1", ⟨"sent1", "tr", ["G1", "G2"]⟩, 1, "health1/a.mp4", "health1/a.mp4"⟩

/-- Record produced for glossRow over cexDirs. -/
def glossRecord : ExampleRec :=
  ⟨"a", "s", ⟨"sid", "tr", ["GLOSS-A", "GLOSS-B", "GLOSS-C"]⟩, 1,
   "health1/a.mp4", "health1/a.mp4"⟩

/-- Manifest file of the witness: a header line and one data row. -/
def csvLines : List String :=
  ["video_id,signer,sentence,translation,annotation,instance",
   "a,s1,sent1,tr,G1 G2,1"]

lemma listHeadMem {α : Type} {l : List α} {a : α} (h : l.head? = some a) :
    a ∈ l := by
  cases l with
  | nil => cases h
  | cons b t =>
    simp only [List.head?] at h
    rw [← Option.some.injEq] at h
    simp only [Option.some.injEq] at h
    rw [← h]
    exact List.mem_cons_self b t

lemma findAsset_some (dirs : List PyDir) (fname : String) (p : FsEntry)
    (h : findAsset dirs fname = some p) :
    p.name = fname ∧ ∃ d ∈ dirs, p ∈ d.entries := by
  unfold findAsset at h
  have hp := listHeadMem h
  obtain ⟨hmem, hname⟩ := List.mem_filter.mp hp
  refine ⟨by simpa using hname, ?_⟩
  obtain ⟨d, hd, hpd⟩ := List.mem_flatMap.mp hmem
  exact ⟨d, hd, hpd⟩

lemma findAsset_isSome_iff (dirs : List PyDir) (fname : String) :
    (findAsset dirs fname).isSome = true ↔
      ∃ d ∈ dirs, ∃ p ∈ d.entries, p.name = fname := by
  constructor
  · intro h
    obtain ⟨p, hp⟩ := Option.isSome_iff_exists.mp h
    obtain ⟨hn, d, hd, hpd⟩ := findAsset_some dirs fname p hp
    exact ⟨d, hd, p, hpd, hn⟩
  · rintro ⟨d, hd, p, hp, hn⟩
    have hmem : p ∈ (dirs.flatMap PyDir.entries).filter
        fun q => q.name == fname :=
      List.mem_filter.mpr ⟨List.mem_flatMap.mpr ⟨d, hd, hp⟩, by simp [hn]⟩
    unfold findAsset
    rw [Option.isSome_iff_exists]
    cases hl : (dirs.flatMap PyDir.entries).filter fun q => q.name == fname with
    | nil => rw [hl] at hmem; cases hmem
    | cons a t => exact ⟨a, rfl⟩

lemma processRow_eq (vp dp : List PyDir) (r : ManifestRow) :
    processRow vp dp r =
      match findAsset vp (videoFilename r.video_id) with
      | none => Except.error PyError.indexError
      | some video_path =>
        match findAsset dp (videoFilename r.video_id) with
        | none => Except.error PyError.indexError
        | some depth_path =>
          match pyInt r.inst with
          | none => Except.error PyError.valueError
          | some n =>
            Except.ok (r.video_id,
              ⟨r.video_id, r.signer,
               ⟨r.sentence, r.translation, pySplitWs r.ann⟩,
               n, video_path.full, depth_path.full⟩) := rfl

lemma runGen_cons_ok {α : Type} (step : α → Except PyError (String × ExampleRec))
    (a : α) (rest : List α) (p : String × ExampleRec) (h : step a = .ok p) :
    runGen step (a :: rest) =
      ⟨p :: (runGen step rest).yielded, (runGen step rest).err⟩ := by
  simp only [runGen]
  rw [h]

lemma runGen_cons_error {α : Type} (step : α → Except PyError (String × ExampleRec))
    (a : α) (rest : List α) (e : PyError) (h : step a = .error e) :
    runGen step (a :: rest) = ⟨[], some e⟩ := by
  simp only [runGen]
  rw [h]

lemma generateExamples_keys (vp dp : List PyDir) (rows : List ManifestRow)
    (h : ∀ r ∈ rows, (findAsset vp (videoFilename r.video_id)).isSome = true ∧
      (findAsset dp (videoFilename r.video_id)).isSome = true ∧
      (pyInt r.inst).isSome = true) :
    (generateExamples vp dp rows).err = none ∧
    (generateExamples vp dp rows).yielded.map Prod.fst =
      rows.map ManifestRow.video_id := by
  induction rows with
  | nil => exact ⟨rfl, rfl⟩
  | cons r rest ih =>
    obtain ⟨h1, h2, h3⟩ := h r (List.mem_cons_self r rest)
    obtain ⟨pv, hv⟩ := Option.isSome_iff_exists.mp h1
    obtain ⟨pd, hd⟩ := Option.isSome_iff_exists.mp h2
    obtain ⟨n, hn⟩ := Option.isSome_iff_exists.mp h3
    have hstep : processRow vp dp r = Except.ok (r.video_id,
        ⟨r.video_id, r.signer, ⟨r.sentence, r.translation, pySplitWs r.ann⟩,
         n, pv.full, pd.full⟩) := by
      rw [processRow_eq, hv, hd, hn]
    have hrest := ih fun x hx => h x (List.mem_cons_of_mem r hx)
    unfold generateExamples at hrest ⊢
    rw [runGen_cons_ok _ _ _ _ hstep]
    exact ⟨hrest.1, by simp [hrest.2]⟩

lemma processDict_ok_key (vp dp : List PyDir) (d : List (String × String))
    (k : String) (e : ExampleRec) (h : processDict vp dp d = Except.ok (k, e)) :
    ∃ r : ManifestRow, toRow d = some r ∧ k = r.video_id := by
  cases h0 : List.lookup "video_id" d with
  | none => simp [processDict, h0] at h
  | some video_id =>
  cases h1 : findAsset vp (videoFilename video_id) with
  | none => simp [processDict, h0, h1] at h
  | some vpath =>
  cases h2 : findAsset dp (videoFilename video_id) with
  | none => simp [processDict, h0, h1, h2] at h
  | some dpath =>
  cases h3 : List.lookup "signer" d with
  | none => simp [processDict, h0, h1, h2, h3] at h
  | some signer =>
  cases h4 : List.lookup "sentence" d with
  | none => simp [processDict, h0, h1, h2, h3, h4] at h
  | some sentenceId =>
  cases h5 : List.lookup "translation" d with
  | none => simp [processDict, h0, h1, h2, h3, h4, h5] at h
  | some translationText =>
  cases h6 : List.lookup "annotation" d with
  | none => simp [processDict, h0, h1, h2, h3, h4, h5, h6] at h
  | some annotationText =>
  cases h7 : List.lookup "instance" d with
  | none => simp [processDict, h0, h1, h2, h3, h4, h5, h6, h7] at h
  | some instText =>
  cases h8 : pyInt instText with
  | none => simp [processDict, h0, h1, h2, h3, h4, h5, h6, h7, h8] at h
  | some n =>
    simp only [processDict, h0, h1, h2, h3, h4, h5, h6, h7, h8,
      Except.ok.injEq, Prod.mk.injEq] at h
    refine ⟨⟨video_id, signer, sentenceId, translationText,
      annotationText, instText⟩, ?_, h.1.symm⟩
    simp [toRow, h0, h3, h4, h5, h6, h7]

lemma dictInsert_mem {m : List (String × UrlInfo)} {k : String} {v : UrlInfo}
    {x : String × UrlInfo} (h : x ∈ dictInsert m k v) :
    x ∈ m ∨ x = (k, v) := by
  induction m with
  | nil => exact Or.inr (by simpa [dictInsert] using h)
  | cons hd tl ih =>
    rw [show dictInsert (hd :: tl) k v =
        if hd.1 = k then (k, v) :: tl else hd :: dictInsert tl k v from by
      cases hd; rfl] at h
    by_cases hk : hd.1 = k
    · rw [if_pos hk] at h
      rcases List.mem_cons.mp h with h | h
      · exact Or.inr h
      · exact Or.inl (List.mem_cons_of_mem hd h)
    · rw [if_neg hk] at h
      rcases List.mem_cons.mp h with h | h
      · exact Or.inl (h ▸ List.mem_cons_self hd tl)
      · rcases ih h with h | h
        · exact Or.inl (List.mem_cons_of_mem hd h)
        · exact Or.inr h

lemma urlInfoStep_mem {urls : List String} {m : List (String × UrlInfo)}
    {line : String} {x : String × UrlInfo} (h : x ∈ urlInfoStep urls m line) :
    x ∈ m ∨ (urls.contains x.1 = true ∧ x.2.size = none ∧ x.2.filename = none) := by
  rcases hs : pySplitTab (pyStrip line) with _ | ⟨a, _ | ⟨b, _ | ⟨c, _ | ⟨d, t⟩⟩⟩⟩ <;>
    simp only [urlInfoStep, hs] at h
  · exact Or.inl h
  · exact Or.inl h
  · exact Or.inl h
  · by_cases hc : urls.contains a
    · rw [if_pos hc] at h
      rcases dictInsert_mem h with h | h
      · exact Or.inl h
      · exact Or.inr (by rw [h]; exact ⟨hc, rfl, rfl⟩)
    · rw [if_neg hc] at h
      exact Or.inl h
  · exact Or.inl h

lemma getUrlInfos_mem_aux (urls : List String) :
    ∀ (lines : List String) (m : List (String × UrlInfo)),
    (∀ x ∈ m, urls.contains x.1 = true ∧ x.2.size = none ∧ x.2.filename = none) →
    ∀ x ∈ lines.foldl (urlInfoStep urls) m,
      urls.contains x.1 = true ∧ x.2.size = none ∧ x.2.filename = none
  | [], _, hm => hm
  | line :: rest, m, hm => by
    intro x hx
    refine getUrlInfos_mem_aux urls rest (urlInfoStep urls m line) ?_ x hx
    intro y hy
    rcases urlInfoStep_mem hy with hy | hy
    · exact hm y hy
    · exact hy

lemma generateFromLines_keys (vp dp : List PyDir)
    (ds : List (List (String × String)))
    (h : (runGen (processDict vp dp) ds).err = none) :
    ∃ rows : List ManifestRow, ds.mapM toRow = some rows ∧
      (runGen (processDict vp dp) ds).yielded.map Prod.fst =
        rows.map ManifestRow.video_id := by
  induction ds with
  | nil => exact ⟨[], rfl, rfl⟩
  | cons d ds ih =>
    cases hp : processDict vp dp d with
    | error e =>
      rw [runGen_cons_error _ _ _ _ hp] at h
      simp at h
    | ok p =>
      obtain ⟨k, e⟩ := p
      rw [runGen_cons_ok _ _ _ _ hp] at h ⊢
      obtain ⟨rows, h1, h2⟩ := ih (by simpa using h)
      obtain ⟨r0, hr0, hk⟩ := processDict_ok_key vp dp d k e hp
      refine ⟨r0 :: rows, ?_, ?_⟩
      · rw [List.mapM_cons, hr0, h1]
        rfl
      · simp [h2, hk]

/-! ### Claim theorems -/

/-- C1: the code contradicts the claim that every requested URL reaches the
download collaborator, with checksum None when the registry has no entry.
With a registry file holding only the health1 line, the kep1 archive URL is
in the requested download_urls, yet the url_infos mapping passed to
download_and_extract holds only the health1 entry (with its checksum) and
no binding at all for the kep1 URL. -/
theorem gsl_C1_absent_url_not_requested :
    ("https://zenodo.org/records/4756317/files/kep1.zip?download=1" ∈ downloadUrls) ∧
    getUrlInfos downloadUrls
        ["https://zenodo.org/records/4756317/files/health1.zip?download=1\tabc\tgsl"] =
      [("https://zenodo.org/records/4756317/files/health1.zip?download=1",
        ⟨none, "abc", none⟩)] ∧
    List.lookup "https://zenodo.org/records/4756317/files/kep1.zip?download=1"
        (getUrlInfos downloadUrls
          ["https://zenodo.org/records/4756317/files/health1.zip?download=1\tabc\tgsl"]) =
      none := by
  decide

/-- C2 counterexample: a manifest of two rows with the same video id a,
both of whose lookups resolve in the given directories, is yielded as two
pairs whose keys coincide, so the keys of a lookup-failure-free run are not
always unique as the claim states. -/
theorem gsl_C2_counterexample :
    (∀ r ∈ [cexRow, cexRow],
      (∃ d ∈ cexDirs, ∃ p ∈ d.entries, p.name = videoFilename r.video_id) ∧
      (∃ d ∈ cexDirs, ∃ p ∈ d.entries, p.name = videoFilename r.video_id)) ∧
    (generateExamples cexDirs cexDirs [cexRow, cexRow]).yielded.length = 2 ∧
    ¬ ((generateExamples cexDirs cexDirs [cexRow, cexRow]).yielded.map
        Prod.fst).Nodup := by
  decide

/-- C2 (amended): for a manifest whose every row has a matching video file,
a matching depth file and an integer-parsable instance column, one run of
the generator finishes without error, yields exactly one pair per row, keyed
by the rows' video ids in manifest order; the keys are unique whenever the
manifest's video ids are pairwise distinct (uniqueness needs that extra
hypothesis, which the original claim omits). The run is a pure function of
the rows and directories, so repeated invocations yield the same count. -/
theorem gsl_C2_round_trip (vp dp : List PyDir) (rows : List ManifestRow)
    (hmatch : ∀ r ∈ rows,
      (∃ d ∈ vp, ∃ p ∈ d.entries, p.name = videoFilename r.video_id) ∧
      (∃ d ∈ dp, ∃ p ∈ d.entries, p.name = videoFilename r.video_id))
    (hint : ∀ r ∈ rows, (pyInt r.inst).isSome = true) :
    (generateExamples vp dp rows).err = none ∧
    (generateExamples vp dp rows).yielded.length = rows.length ∧
    (generateExamples vp dp rows).yielded.map Prod.fst =
      rows.map ManifestRow.video_id ∧
    ((rows.map ManifestRow.video_id).Nodup →
      ((generateExamples vp dp rows).yielded.map Prod.fst).Nodup) := by
  have key := generateExamples_keys vp dp rows fun r hr =>
    ⟨(findAsset_isSome_iff vp _).mpr (hmatch r hr).1,
     (findAsset_isSome_iff dp _).mpr (hmatch r hr).2, hint r hr⟩
  refine ⟨key.1, ?_, key.2, fun hn => key.2 ▸ hn⟩
  have := congrArg List.length key.2
  simpa using this

/-- C2 witness: a one-row manifest over the concrete directory satisfies the
hypotheses and the generator yields exactly one pair, no error, unique key. -/
theorem gsl_C2_witness :
    (generateExamples cexDirs cexDirs [cexRow]).err = none ∧
    (generateExamples cexDirs cexDirs [cexRow]).yielded.length = 1 ∧
    (generateExamples cexDirs cexDirs [cexRow]).yielded.map Prod.fst =
      [cexRow].map ManifestRow.video_id ∧
    ((generateExamples cexDirs cexDirs [cexRow]).yielded.map Prod.fst).Nodup := by
  obtain ⟨a, b, c, d⟩ :=
    gsl_C2_round_trip cexDirs cexDirs [cexRow] (by decide) (by decide)
  exact ⟨a, b, c, d (by decide)⟩

/-- C3: a row whose video id has no file named video_id.mp4 among the video
directories, or none among the depth directories, makes the generator raise
IndexError and emit nothing for that row; and when both lookups succeed, the
looked-up entries are named video_id.mp4, lie in the respective directory
lists, and the emitted record's video and depth paths are exactly those
entries' paths. -/
theorem gsl_C3_lookup (vp dp : List PyDir) (r : ManifestRow)
    (rest : List ManifestRow) :
    (findAsset vp (videoFilename r.video_id) = none ∨
       findAsset dp (videoFilename r.video_id) = none →
     processRow vp dp r = Except.error PyError.indexError ∧
     generateExamples vp dp (r :: rest) = ⟨[], some PyError.indexError⟩) ∧
    (∀ pv pd, findAsset vp (videoFilename r.video_id) = some pv →
       findAsset dp (videoFilename r.video_id) = some pd →
       pv.name = videoFilename r.video_id ∧ (∃ d ∈ vp, pv ∈ d.entries) ∧
       pd.name = videoFilename r.video_id ∧ (∃ d ∈ dp, pd ∈ d.entries) ∧
       ∀ k e, processRow vp dp r = Except.ok (k, e) →
         e.video = pv.full ∧ e.depth_video = pd.full) := by
  constructor
  · intro h
    have hpr : processRow vp dp r = Except.error PyError.indexError := by
      rcases h with h | h
      · rw [processRow_eq, h]
      · cases hv : findAsset vp (videoFilename r.video_id) with
        | none => rw [processRow_eq, hv]
        | some pv => rw [processRow_eq, hv, h]
    exact ⟨hpr, by
      unfold generateExamples
      rw [runGen_cons_error _ _ _ _ hpr]⟩
  · intro pv pd hv hd
    obtain ⟨hn1, hm1⟩ := findAsset_some vp _ pv hv
    obtain ⟨hn2, hm2⟩ := findAsset_some dp _ pd hd
    refine ⟨hn1, hm1, hn2, hm2, ?_⟩
    intro k e h
    cases hn : pyInt r.inst with
    | none =>
      have : processRow vp dp r = Except.error PyError.valueError := by
        rw [processRow_eq, hv, hd, hn]
      rw [this] at h
      exact Except.noConfusion h
    | some n =>
      have hok : processRow vp dp r = Except.ok (r.video_id,
          ⟨r.video_id, r.signer, ⟨r.sentence, r.translation, pySplitWs r.ann⟩,
           n, pv.full, pd.full⟩) := by
        rw [processRow_eq, hv, hd, hn]
      rw [hok] at h
      injection h with h1
      injection h1 with hk he
      rw [← he]
      exact ⟨rfl, rfl⟩

/-- C3 witness: over a directory without a.mp4 the row for video id a makes
the generator raise IndexError and yield nothing, and over the directory
holding a.mp4 the emitted record's paths are that entry's path. -/
theorem gsl_C3_witness :
    (processRow missDirs missDirs cexRow = Except.error PyError.indexError ∧
     generateExamples missDirs missDirs [cexRow] =
       ⟨[], some PyError.indexError⟩) ∧
    (cexRecord.video = "health1/a.mp4" ∧
     cexRecord.depth_video = "health1/a.mp4") :=
  ⟨(gsl_C3_lookup missDirs missDirs cexRow []).1 (Or.inl (by decide)),
   ((gsl_C3_lookup cexDirs cexDirs cexRow []).2 cexEntry cexEntry
     (by decide) (by decide)).2.2.2.2 "a" cexRecord (by decide)⟩

/-- C4: whenever the generator emits a record for a row, the glosses field
equals the whitespace-split tokens of the row's annotation column, in order,
duplicates preserved. -/
theorem gsl_C4_glosses (vp dp : List PyDir) (r : ManifestRow) (k : String)
    (e : ExampleRec) (h : processRow vp dp r = Except.ok (k, e)) :
    e.sentence.glosses = pySplitWs r.ann := by
  cases hv : findAsset vp (videoFilename r.video_id) with
  | none =>
    rw [processRow_eq, hv] at h
    exact Except.noConfusion h
  | some pv =>
  cases hd : findAsset dp (videoFilename r.video_id) with
  | none =>
    rw [processRow_eq, hv, hd] at h
    exact Except.noConfusion h
  | some pd =>
  cases hn : pyInt r.inst with
  | none =>
    rw [processRow_eq, hv, hd, hn] at h
    exact Except.noConfusion h
  | some n =>
    rw [processRow_eq, hv, hd, hn] at h
    injection h with h1
    injection h1 with hk he
    rw [← he]

/-- C4 witness: the record emitted for the row whose annotation column is
GLOSS-A GLOSS-B GLOSS-C carries exactly those three glosses in order. -/
theorem gsl_C4_witness :
    glossRecord.sentence.glosses = pySplitWs "GLOSS-A GLOSS-B GLOSS-C" ∧
    pySplitWs "GLOSS-A GLOSS-B GLOSS-C" = ["GLOSS-A", "GLOSS-B", "GLOSS-C"] :=
  ⟨gsl_C4_glosses cexDirs cexDirs glossRow "a" glossRecord (by decide),
   by decide⟩

/-- C5: the code contradicts the claim that the depth archive URL carries
the _Depth suffix exactly once: the video URL for health1 is as the claim
says, but the first depth URL built by the code doubles the suffix
(health1_Depth_Depth.zip), and the singly-suffixed URL the claim describes
is not among the depth URLs, even though the depth_files name filter of
_split_generators expects the singly-suffixed name health1_Depth. -/
theorem gsl_C5_depth_url_doubled :
    videosUrlTemplate "health1" =
      "https://zenodo.org/records/4756317/files/health1.zip?download=1" ∧
    depthUrls.head? =
      some "https://zenodo.org/records/4756317/files/health1_Depth_Depth.zip?download=1" ∧
    ("https://zenodo.org/records/4756317/files/health1_Depth.zip?download=1" ∉
      depthUrls) ∧
    depthNames.head? = some "health1_Depth" := by
  decide

/-- C6 counterexample: with two directories each holding an entry named
a.mp4 the filename matches twice, yet the generator raises nothing and
silently emits a record using the first match, contradicting the claim that
more than one match raises a lookup error. -/
theorem gsl_C6_counterexample :
    ((dupDirs.flatMap PyDir.entries).filter
        fun p => p.name == videoFilename "a").length = 2 ∧
    processRow dupDirs dupDirs cexRow =
      Except.ok ("a", ⟨"a", "s1", ⟨"sent1", "tr", ["G1", "G2"]⟩, 1,
        "health1/a.mp4", "health1/a.mp4"⟩) := by
  decide

/-- C6 (amended): zero matches for a row's filename across the directories
raise IndexError, exactly as the claim states; but one or more matches never
raise: the generator silently uses the first matching entry (in directory
order), so the multiple-match half of the claim is false. -/
theorem gsl_C6_first_match (vp dp : List PyDir) (r : ManifestRow) :
    (((vp.flatMap PyDir.entries).filter
        fun p => p.name == videoFilename r.video_id) = [] →
      processRow vp dp r = Except.error PyError.indexError) ∧
    (∀ pv tv pd td n,
      ((vp.flatMap PyDir.entries).filter
        fun p => p.name == videoFilename r.video_id) = pv :: tv →
      ((dp.flatMap PyDir.entries).filter
        fun p => p.name == videoFilename r.video_id) = pd :: td →
      pyInt r.inst = some n →
      processRow vp dp r = Except.ok (r.video_id,
        ⟨r.video_id, r.signer, ⟨r.sentence, r.translation, pySplitWs r.ann⟩,
         n, pv.full, pd.full⟩)) := by
  constructor
  · intro h
    have hv : findAsset vp (videoFilename r.video_id) = none := by
      unfold findAsset
      rw [h]
      rfl
    rw [processRow_eq, hv]
  · intro pv tv pd td n h1 h2 hn
    have hv : findAsset vp (videoFilename r.video_id) = some pv := by
      unfold findAsset
      rw [h1]
      rfl
    have hd : findAsset dp (videoFilename r.video_id) = some pd := by
      unfold findAsset
      rw [h2]
      rfl
    rw [processRow_eq, hv, hd, hn]

/-- C6 witness: zero matches raise IndexError; two matches produce the
record built from the first matching entry, with no error. -/
theorem gsl_C6_witness :
    processRow missDirs missDirs cexRow = Except.error PyError.indexError ∧
    processRow dupDirs dupDirs cexRow = Except.ok ("a",
      ⟨"a", "s1", ⟨"sent1", "tr", ["G1", "G2"]⟩, 1,
       "health1/a.mp4", "health1/a.mp4"⟩) :=
  ⟨(gsl_C6_first_match missDirs missDirs cexRow).1 (by decide),
   (gsl_C6_first_match dupDirs dupDirs cexRow).2
     ⟨"health1/a.mp4", "a.mp4"⟩ [⟨"health2/a.mp4", "a.mp4"⟩]
     ⟨"health1/a.mp4", "a.mp4"⟩ [⟨"health2/a.mp4", "a.mp4"⟩] 1
     (by decide) (by decide) (by decide)⟩

/-- C7: with both file lookups succeeding, an instance column parsing to n
yields a record whose instance field is n, and a non-integer instance
column makes the generator raise ValueError at that row, emitting nothing
for it or any later row. -/
theorem gsl_C7_instance (vp dp : List PyDir) (r : ManifestRow)
    (pv pd : FsEntry)
    (hv : findAsset vp (videoFilename r.video_id) = some pv)
    (hd : findAsset dp (videoFilename r.video_id) = some pd) :
    (∀ n, pyInt r.inst = some n →
      processRow vp dp r = Except.ok (r.video_id,
        ⟨r.video_id, r.signer, ⟨r.sentence, r.translation, pySplitWs r.ann⟩,
         n, pv.full, pd.full⟩)) ∧
    (pyInt r.inst = none →
      processRow vp dp r = Except.error PyError.valueError ∧
      ∀ rest, generateExamples vp dp (r :: rest) =
        ⟨[], some PyError.valueError⟩) := by
  constructor
  · intro n hn
    rw [processRow_eq, hv, hd, hn]
  · intro hn
    have hpr : processRow vp dp r = Except.error PyError.valueError := by
      rw [processRow_eq, hv, hd, hn]
    refine ⟨hpr, fun rest => ?_⟩
    unfold generateExamples
    rw [runGen_cons_error _ _ _ _ hpr]

/-- C7 witness: instance column 1 yields a record with instance 1, and
instance column oops raises ValueError with nothing yielded. -/
theorem gsl_C7_witness :
    processRow cexDirs cexDirs cexRow = Except.ok ("a", cexRecord) ∧
    processRow cexDirs cexDirs badIntRow = Except.error PyError.valueError ∧
    generateExamples cexDirs cexDirs [badIntRow] =
      ⟨[], some PyError.valueError⟩ := by
  have hpos := (gsl_C7_instance cexDirs cexDirs cexRow cexEntry cexEntry
    (by decide) (by decide)).1 1 (by decide)
  have hneg := (gsl_C7_instance cexDirs cexDirs badIntRow cexEntry cexEntry
    (by decide) (by decide)).2 (by decide)
  exact ⟨hpos, hneg.1, hneg.2 []⟩

/-- C8: the build maps exactly the three split names GSL-SD-train,
GSL-SD-val, GSL-SD-test, in order, to the manifest files split.csv under
the continuous directory; and an error-free generator run over a manifest's
lines keys its records by the video_id column of the eagerly parsed rows,
in manifest row order. -/
theorem gsl_C8_splits (continuousDir : String) (vp dp : List PyDir)
    (lines : List String)
    (h : (generateFromLines vp dp lines).err = none) :
    splitManifests continuousDir =
      [("GSL-SD-train", osPathJoin continuousDir "GSL-SD-train.csv"),
       ("GSL-SD-val", osPathJoin continuousDir "GSL-SD-val.csv"),
       ("GSL-SD-test", osPathJoin continuousDir "GSL-SD-test.csv")] ∧
    ∃ rows : List ManifestRow, (dictRows lines).mapM toRow = some rows ∧
      (generateFromLines vp dp lines).yielded.map Prod.fst =
        rows.map ManifestRow.video_id :=
  ⟨rfl, generateFromLines_keys vp dp (dictRows lines) h⟩

/-- C8 witness: the concrete manifest with the six-column header and one
data row keyed a generates exactly the key a, and the three split manifest
paths are as expected. -/
theorem gsl_C8_witness :
    splitManifests "GSL_split/GSL_continuous" =
      [("GSL-SD-train", "GSL_split/GSL_continuous/GSL-SD-train.csv"),
       ("GSL-SD-val", "GSL_split/GSL_continuous/GSL-SD-val.csv"),
       ("GSL-SD-test", "GSL_split/GSL_continuous/GSL-SD-test.csv")] ∧
    (generateFromLines cexDirs cexDirs csvLines).yielded.map Prod.fst =
      ["a"] := by
  obtain ⟨hs, rows, h1, h2⟩ :=
    gsl_C8_splits "GSL_split/GSL_continuous" cexDirs cexDirs csvLines
      (by decide)
  refine ⟨hs, ?_⟩
  have hr : (dictRows csvLines).mapM toRow =
      some [⟨"a", "s1", "sent1", "tr", "G1 G2", "1"⟩] := by decide
  rw [hr] at h1
  injection h1 with h1
  rw [h2, ← h1]
  rfl

/-- C9: the asset names are exactly the cross product of the three scenario
names with indices 1 through 5 (15 video names), plus the same names
suffixed _Depth (30 names in total, all distinct), and the downloaded files
are split into the video and depth groups exactly by membership of their
name in the two name lists. -/
theorem gsl_C9_names (files : List PyDir) (d : PyDir) :
    videoNames = ["health1", "health2", "health3", "health4", "health5",
      "kep1", "kep2", "kep3", "kep4", "kep5",
      "police1", "police2", "police3", "police4", "police5"] ∧
    depthNames = ["health1_Depth", "health2_Depth", "health3_Depth",
      "health4_Depth", "health5_Depth", "kep1_Depth", "kep2_Depth",
      "kep3_Depth", "kep4_Depth", "kep5_Depth", "police1_Depth",
      "police2_Depth", "police3_Depth", "police4_Depth", "police5_Depth"] ∧
    (videoNames ++ depthNames).length = 30 ∧
    (videoNames ++ depthNames).Nodup ∧
    (d ∈ videoFilesOf files ↔ d ∈ files ∧ d.name ∈ videoNames) ∧
    (d ∈ depthFilesOf files ↔ d ∈ files ∧ d.name ∈ depthNames) := by
  refine ⟨by decide, by decide, by decide, by decide, ?_, ?_⟩
  · simp [videoFilesOf, List.mem_filter]
  · simp [depthFilesOf, List.mem_filter]

/-- C9 witness: a downloaded directory named health3 belongs to the video
group. -/
theorem gsl_C9_witness :
    (⟨"health3", []⟩ : PyDir) ∈ videoFilesOf [⟨"health3", []⟩] :=
  ((gsl_C9_names [⟨"health3", []⟩] ⟨"health3", []⟩).2.2.2.2.1).mpr
    ⟨by decide, by decide⟩

/-- C10: a registry line that does not strip-and-split on tab into exactly
three fields leaves the mapping unchanged (silently skipped, no error is
possible since the embedded reader is total), and every entry of the
returned mapping has a url belonging to the requested list, size None and
filename None. -/
theorem gsl_C10_registry (urls lines : List String) :
    (∀ line m, (pySplitTab (pyStrip line)).length ≠ 3 →
      urlInfoStep urls m line = m) ∧
    (∀ url info, (url, info) ∈ getUrlInfos urls lines →
      urls.contains url = true ∧ info.size = none ∧ info.filename = none) := by
  constructor
  · intro line m h
    rcases hs : pySplitTab (pyStrip line) with _ | ⟨a, _ | ⟨b, _ | ⟨c, _ | ⟨e, t⟩⟩⟩⟩
    · simp [urlInfoStep, hs]
    · simp [urlInfoStep, hs]
    · simp [urlInfoStep, hs]
    · rw [hs] at h
      simp at h
    · simp [urlInfoStep, hs]
  · intro url info hmem
    exact getUrlInfos_mem_aux urls lines [] (by simp) (url, info) hmem

/-- C10 witness: a line without tabs leaves the empty mapping empty, and the
entry produced from a well-formed registry line for a requested url has
size None and filename None. -/
theorem gsl_C10_witness :
    urlInfoStep ["u"] [] "no tabs here" = [] ∧
    (["u"].contains "u" = true ∧ (⟨none, "abc", none⟩ : UrlInfo).size = none ∧
      (⟨none, "abc", none⟩ : UrlInfo).filename = none) :=
  ⟨(gsl_C10_registry ["u"] []).1 "no tabs here" [] (by decide),
   (gsl_C10_registry ["u"] ["u\tabc\tx"]).2 "u" ⟨none, "abc", none⟩
     (by decide)⟩
